import Mathlib

/-!
Verification of the Instagram Profile Fetcher service (src/main.py) against its
specification. The service is a FastAPI app with three endpoints: a rate-limited,
cache-augmented profile scraper (`GET /scrape/{username}`), an image proxy
(`GET /proxy-image/`), and a health check (`GET /health`). We shallowly embed the
request handlers as pure Lean functions over explicit state (the TTL cache and the
per-client rate-limit window) and an abstract upstream oracle, and prove the
specified properties.
-/

namespace InstaFetcher

/-! ## Data model -/

/-- Upstream record produced by `instaloader.Profile.from_username`: the fields the
service reads (`userid`, `username`, `followers`, `followees`, `mediacount`,
`profile_pic_url`, `biography`, `full_name`). The upstream capability is a black
box; only its result shape matters to the service. -/
structure UpstreamProfile where
  userid : String
  username : String
  followers : Nat
  followees : Nat
  mediacount : Nat
  profile_pic_url : String
  biography : String
  full_name : String
deriving DecidableEq, Repr

/-- Pydantic response model `ProfileData` (src/main.py lines 48-55). -/
structure ProfileData where
  username : String
  followers : Nat
  following : Nat
  posts_count : Nat
  dp_url : String
  bio : String
  full_name : String
deriving DecidableEq, Repr

/-- Outcome of one call to the upstream capability (`Profile.from_username`):
either a profile, or one of the exception classes the handler distinguishes.
`connectionExc` models `instaloader.exceptions.ConnectionException` (a subclass of
`InstaloaderException`, listed first so it is matched first, as in the code);
`instaloaderExc` models any other `InstaloaderException` that is not
`ProfileNotExistsException`; `otherExc` models any remaining `Exception`. -/
inductive UpstreamOutcome where
  | success (p : UpstreamProfile)
  | profileNotExists
  | connectionExc (msg : String)
  | instaloaderExc (msg : String)
  | otherExc (msg : String)
deriving DecidableEq, Repr

/-- HTTP response of the profile endpoint: a 200 with a `ProfileData` body, or an
error response with a status code and the `ErrorResponse` body
`\x7berror, details\x7d` (src/main.py lines 57-59). -/
inductive HttpResponse where
  | ok (body : ProfileData)
  | err (status : Nat) (error : String) (details : String)
deriving DecidableEq, Repr

/-- HTTP status of a profile-endpoint response. -/
def HttpResponse.statusCode : HttpResponse → Nat
  | .ok _ => 200
  | .err s _ _ => s

/-! ## Profile cache (`TTLCache(maxsize=1000, ttl=3600)`, src/main.py line 39)

The cache is the `cachetools.TTLCache` dependency: a bounded key-value store in
which an entry expires `ttl` seconds after insertion (an entry inserted at time
`ti` is expired at any time `t` with `ti + ttl ≤ t`), expired entries are treated
as absent by lookups, and inserting into a full cache first drops expired entries
and then evicts stored entries (by a recency policy; which live entry is evicted
is not observable in the specified properties, and we evict from the front of the
insertion order). We embed it as a list of entries in insertion order. -/

/-- Cache TTL in seconds (src/main.py line 39: `ttl=3600`). -/
def TTL : Nat := 3600

/-- Cache capacity (src/main.py line 39: `maxsize=1000`). -/
def MAXSIZE : Nat := 1000

/-- Python `str.lower()` (used as `username.lower()` at src/main.py lines 92, 94,
102, 126): lower-case the string character by character. -/
def pyLower (s : String) : String := ⟨s.data.map Char.toLower⟩

/-- One cache entry: key, value and insertion time. -/
structure CacheEntry where
  key : String
  val : ProfileData
  time : Nat
deriving DecidableEq, Repr

/-- An entry inserted at `e.time` is expired at time `t` once `ttl` has elapsed. -/
def expiredAt (t : Nat) (e : CacheEntry) : Bool := e.time + TTL ≤ t

/-- Cache state: entries in insertion order (oldest first). -/
abbrev CacheState : Type := List CacheEntry

/-- Cache lookup at time `t`: an entry is returned only if its key matches and it
has not expired (`TTLCache.__getitem__` / `__contains__` treat expired entries as
absent). -/
def cacheLookup (c : CacheState) (t : Nat) (k : String) : Option ProfileData :=
  match c.find? (fun e => e.key == k && !expiredAt t e) with
  | some e => some e.val
  | none => none

/-- Cache insertion at time `t` (`TTLCache.__setitem__`): expired entries are
purged, an existing entry under the same key is replaced, and while the store is
still at capacity the eviction policy removes stored entries before the new entry
is added. -/
def cacheInsert (c : CacheState) (t : Nat) (k : String) (v : ProfileData) :
    CacheState :=
  let live := c.filter (fun e => !expiredAt t e && e.key != k)
  let kept := live.drop (live.length - (MAXSIZE - 1))
  kept ++ [⟨k, v, t⟩]

/-! ## Python error-body strings

The 404 `HTTPException`s raised inside the outer `try` of the handler are caught
again by its own `except Exception as e` clause (FastAPI `HTTPException` derives
from `Exception`), which replaces them with a 500 whose `details` is `str(e)`.
For a Starlette `HTTPException`, `str(e)` is `"<status_code>: <detail>"` with the
detail dict rendered by Python `str`. We embed these strings concretely. -/

/-- Python `repr` of a string, for the strings appearing in the handler: single
quotes unless the string contains a single quote and no double quote. -/
def pyRepr (s : String) : String :=
  if s.data.contains '\x27' && !s.data.contains '"' then "\"" ++ s ++ "\""
  else "\x27" ++ s ++ "\x27"

/-- Python `str` of the dict `\x7b"error": e, "details": d\x7d`. -/
def pyDictStr (e d : String) : String :=
  "\x7b\x27error\x27: " ++ pyRepr e ++ ", \x27details\x27: " ++ pyRepr d ++ "\x7d"

/-- Python `str` of a Starlette `HTTPException` with a dict detail. -/
def httpExceptionStr (status : Nat) (detailStr : String) : String :=
  toString status ++ ": " ++ detailStr

/-- Detail dict of the not-found 404 (src/main.py line 106). -/
def notFoundDetail (username : String) : String :=
  pyDictStr "Profile not found" ("@" ++ username ++ " doesn\x27t exist")

/-- Detail dict of the empty-userid 404 (src/main.py line 112). -/
def invalidDataDetail : String :=
  pyDictStr "Profile not found" "Invalid data from Instagram"

/-! ## Profile endpoint handler -/

/-- State threaded through the profile endpoint: the shared cache plus a counter
of upstream-adapter invocations (instrumentation for the at-most-once property;
the code performs one `Profile.from_username` call per cache miss). -/
structure ScrapeState where
  cache : CacheState
  upstreamCalls : Nat
deriving DecidableEq, Repr

/-- The `ProfileData` built on the success path (src/main.py lines 115-123):
`username` from the upstream record, `following` from `followees`, `posts_count`
from `mediacount`, `dp_url` from `profile_pic_url`, `bio` from `biography`. -/
def mkProfileData (p : UpstreamProfile) : ProfileData :=
  ⟨p.username, p.followers, p.followees, p.mediacount,
   p.profile_pic_url, p.biography, p.full_name⟩

/-- The body of `get_instagram_profile` (src/main.py lines 89-147), after the
rate-limit gate. `upstream` is the black-box capability; `now` the current time.
Control flow follows the Python exactly: the cache is probed under
`username.lower()`; on a miss the upstream is queried under `username.lower()`;
`ProfileNotExistsException` and an empty `userid` raise an `HTTPException(404)`
inside the outer `try`, which the `except Exception` clause catches and converts
to a 500 `"Internal error"` response; `ConnectionException` maps to 503,
any other `InstaloaderException` to 500 `"Instagram fetch failed"`, any other
exception to 500 `"Internal error"`; on success the record is cached under
`username.lower()` and returned. -/
def get_instagram_profile (upstream : String → UpstreamOutcome)
    (st : ScrapeState) (now : Nat) (username : String) :
    HttpResponse × ScrapeState :=
  let key := pyLower username
  match cacheLookup st.cache now key with
  | some v => (HttpResponse.ok v, st)
  | none =>
    let calls := st.upstreamCalls + 1
    match upstream key with
    | .profileNotExists =>
        (HttpResponse.err 500 "Internal error"
          (httpExceptionStr 404 (notFoundDetail username)), ⟨st.cache, calls⟩)
    | .connectionExc msg =>
        (HttpResponse.err 503 "Instagram connection failed" msg,
         ⟨st.cache, calls⟩)
    | .instaloaderExc msg =>
        (HttpResponse.err 500 "Instagram fetch failed" msg, ⟨st.cache, calls⟩)
    | .otherExc msg =>
        (HttpResponse.err 500 "Internal error" msg, ⟨st.cache, calls⟩)
    | .success p =>
        if p.userid = "" then
          (HttpResponse.err 500 "Internal error"
            (httpExceptionStr 404 invalidDataDetail), ⟨st.cache, calls⟩)
        else
          let d := mkProfileData p
          (HttpResponse.ok d, ⟨cacheInsert st.cache now key d, calls⟩)

/-! ## Rate limiter (`@limiter.limit("10/minute")`, src/main.py lines 36, 88)

The limiter itself lives in the `slowapi`/`limits` dependency; only its
configuration (`10/minute`, keyed by `get_remote_address`) and its attachment to
the profile endpoint alone are in this repository. Modelled from the spec:
`admit(clientId) -> allowed`, a fixed quota of 10 requests per 60-second window
per client identifier; requests beyond the quota within a window are rejected
with a 429 before any cache or upstream work; the count resets when the window
elapses. -/

/-- Requests admitted per window (`"10/minute"`). -/
def RATE_LIMIT_COUNT : Nat := 10

/-- Window length in seconds (`"10/minute"`). -/
def WINDOW_SECONDS : Nat := 60

/-- Rate-limit window state for one client identifier: the current window index
and the number of requests seen in it. -/
structure LimiterState where
  window : Nat
  count : Nat
deriving DecidableEq, Repr

/-- Fresh limiter state (no requests seen). -/
def LimiterState.init : LimiterState := ⟨0, 0⟩

/-- Modelled from the spec: one limiter hit at time `now` for a given client.
Returns whether the request is admitted and the updated window state: the count
resets when the window index changes, and a request is admitted exactly when
fewer than `RATE_LIMIT_COUNT` requests have been counted in the current
window. -/
def limiterHit (s : LimiterState) (now : Nat) : Bool × LimiterState :=
  let w := now / WINDOW_SECONDS
  let c := if w = s.window then s.count else 0
  (c < RATE_LIMIT_COUNT, ⟨w, c + 1⟩)

/-- Limiter states of all client identifiers (remote addresses), as a total map;
each client has its own independent window. -/
def LimiterMap : Type := String → LimiterState

/-- Sequence of limiter hits for one client: the list of admission decisions and
the final state. -/
def runLimiter : LimiterState → List Nat → List Bool × LimiterState
  | s, [] => ([], s)
  | s, t :: ts =>
    let (b, s1) := limiterHit s t
    let (bs, s2) := runLimiter s1 ts
    (b :: bs, s2)

/-! ## Full profile endpoint: rate-limit gate then handler -/

/-- Whole-app state for the profile endpoint: per-client limiter windows plus the
shared scrape state (cache and upstream-call counter). -/
structure AppState where
  limiters : LimiterMap
  scrape : ScrapeState

/-- `GET /scrape/{username}` as served: the `@limiter.limit("10/minute")` gate
keyed by the client's remote address runs first; a rejected request is answered
429 with slowapi's error body and the handler body never runs; an admitted
request runs `get_instagram_profile`. -/
def scrapeEndpoint (upstream : String → UpstreamOutcome) (st : AppState)
    (now : Nat) (clientAddr : String) (username : String) :
    HttpResponse × AppState :=
  let hit := limiterHit (st.limiters clientAddr) now
  let limiters1 := fun a => if a = clientAddr then hit.2 else st.limiters a
  if hit.1 then
    let handled := get_instagram_profile upstream st.scrape now username
    (handled.1, ⟨limiters1, handled.2⟩)
  else
    (HttpResponse.err 429 "Rate limit exceeded" "10 per 1 minute",
     ⟨limiters1, st.scrape⟩)

/-! ## Image proxy (`proxy_image`, src/main.py lines 149-165) -/

/-- Outcome of the single `httpx` GET issued by the proxy: either an HTTP
response (any status, including non-2xx — `httpx` does not raise on status) with
an optional `Content-Type` header and a body, or a raised exception (network
error, timeout). -/
inductive FetchOutcome where
  | response (status : Nat) (contentType : Option String) (body : List Nat)
  | exc (msg : String)
deriving DecidableEq, Repr

/-- Response of the image proxy endpoint: a streamed body with a status and media
type, or an error with a status and a plain detail string. -/
inductive ProxyResponse where
  | stream (status : Nat) (mediaType : String) (body : List Nat)
  | err (status : Nat) (detail : String)
deriving DecidableEq, Repr

/-- HTTP status of a proxy response. -/
def ProxyResponse.statusCode : ProxyResponse → Nat
  | .stream s _ _ => s
  | .err s _ => s

/-- `GET /proxy-image/` (src/main.py lines 149-165): fetch the URL once with
spoofed headers; stream the body back in a `StreamingResponse` (default status
200) with the upstream `Content-Type` when present, else `"image/jpeg"`; any
raised exception is answered 500 with the fixed detail `"Image fetch failed"`.
The upstream status code is never inspected. -/
def proxy_image (fetch : String → FetchOutcome) (url : String) : ProxyResponse :=
  match fetch url with
  | .response _ ct body => ProxyResponse.stream 200 (ct.getD "image/jpeg") body
  | .exc _ => ProxyResponse.err 500 "Image fetch failed"

/-! ## Health check (`health_check`, src/main.py lines 171-177) -/

/-- Body of `GET /health`. -/
structure HealthBody where
  status : String
  timestamp : Nat
  cache_size : Nat
deriving DecidableEq, Repr

/-- `GET /health`: always answers 200 with status `"healthy"`, the current time
and the cache occupancy. -/
def health_check (cache : CacheState) (now : Nat) : Nat × HealthBody :=
  (200, ⟨"healthy", now, cache.length⟩)

/-! ## Concrete scenario data -/

/-- Upstream record of the `/scrape/nasa` scenario from the spec. -/
def nasaUpstream : UpstreamProfile :=
  ⟨"528817151", "nasa", 95000000, 60, 4200, "https://.../nasa.jpg",
   "Explore the universe.", "NASA"⟩

/-- A throwaway profile value for cache scenarios. -/
def dummyProfile : ProfileData := ⟨"u", 0, 0, 0, "", "", ""⟩

/-- An upstream oracle knowing exactly the `nasa` profile. -/
def nasaOracle : String → UpstreamOutcome :=
  fun s => if s = "nasa" then .success nasaUpstream else .profileNotExists

/-- A full cache: `MAXSIZE` entries with pairwise distinct keys
(`""`, `"a"`, `"aa"`, ...), all inserted at time 0. -/
def bigCache : CacheState :=
  (List.range MAXSIZE).map (fun i => ⟨⟨List.replicate i 'a'⟩, dummyProfile, 0⟩)

/-! # Theorems -/

/-! ## Cache lemmas -/

/-- Every entry kept by `cacheInsert` from the old cache has a key different from
the inserted key. -/
theorem cacheInsert_kept_key_ne (c : CacheState) (t : Nat) (k : String)
    (e : CacheEntry)
    (he : e ∈ (c.filter fun e => !expiredAt t e && e.key != k)) : e.key ≠ k := by
  have hp := List.of_mem_filter he
  simp only [Bool.and_eq_true, bne_iff_ne, ne_eq] at hp
  exact hp.2

/-- Looking up the key just inserted at `t1`, at any time `t2` before the TTL has
elapsed, returns the inserted value. -/
theorem cacheLookup_cacheInsert_self (c : CacheState) (t1 t2 : Nat) (k : String)
    (v : ProfileData) (h : t2 < t1 + TTL) :
    cacheLookup (cacheInsert c t1 k v) t2 k = some v := by
  have hne : ¬(t1 + TTL ≤ t2) := by omega
  simp only [cacheLookup, cacheInsert, List.find?_append]
  have hnone : (List.find? (fun e => e.key == k && !expiredAt t2 e)
      ((c.filter fun e => !expiredAt t1 e && e.key != k).drop
        ((c.filter fun e => !expiredAt t1 e && e.key != k).length - (MAXSIZE - 1))))
      = none := by
    rw [List.find?_eq_none]
    intro e he
    have hk : e.key ≠ k := cacheInsert_kept_key_ne c t1 k e (List.mem_of_mem_drop he)
    simp [hk]
  rw [hnone]
  simp [List.find?, expiredAt, hne]

/-- C6 helper: the number of entries kept from the old cache is below capacity. -/
theorem cacheInsert_kept_length (l : List CacheEntry) :
    (l.drop (l.length - (MAXSIZE - 1))).length ≤ MAXSIZE - 1 := by
  rw [List.length_drop]
  omega

/-- The capacity bound `C6` needs: an insertion never leaves more than `MAXSIZE`
entries. -/
theorem cacheInsert_length_le (c : CacheState) (t : Nat) (k : String)
    (v : ProfileData) : (cacheInsert c t k v).length ≤ MAXSIZE := by
  simp only [cacheInsert, List.length_append, List.length_cons, List.length_nil]
  have := cacheInsert_kept_length (c.filter fun e => !expiredAt t e && e.key != k)
  have hpos : 1 ≤ MAXSIZE := by decide
  omega

/-- C6: the profile cache never exceeds its capacity of `MAXSIZE = 1000` entries;
inserting a new key into a full cache evicts an existing entry (some previously
present key is no longer present); and a lookup only ever returns the value of an
entry whose age is still below the TTL — an entry older than 1 hour is never
returned, even while still stored. -/
theorem c6_cache_capacity_and_ttl :
    (∀ (c : CacheState) (t : Nat) (k : String) (v : ProfileData),
        (cacheInsert c t k v).length ≤ MAXSIZE)
    ∧ (∀ (c : CacheState) (t : Nat) (k : String) (v : ProfileData),
        c.length = MAXSIZE → (c.map CacheEntry.key).Nodup →
        k ∉ c.map CacheEntry.key →
        ∃ e ∈ c, e.key ∉ (cacheInsert c t k v).map CacheEntry.key)
    ∧ (∀ (c : CacheState) (t : Nat) (k : String) (v : ProfileData),
        cacheLookup c t k = some v →
        ∃ ti, (⟨k, v, ti⟩ : CacheEntry) ∈ c ∧ t < ti + TTL) := by
  refine ⟨cacheInsert_length_le, ?_, ?_⟩
  · intro c t k v hlen hnodup hfresh
    by_contra hall
    push_neg at hall
    have hsub : (c.map CacheEntry.key) ⊆
        ((c.filter fun e => !expiredAt t e && e.key != k).drop
          ((c.filter fun e => !expiredAt t e && e.key != k).length
            - (MAXSIZE - 1))).map CacheEntry.key := by
      intro x hx
      obtain ⟨e, hec, hex⟩ := List.mem_map.1 hx
      have hxk : x ≠ k := fun hxeq => hfresh (hxeq ▸ hx)
      have hin := hall e hec
      simp only [cacheInsert, List.map_append, List.map_cons, List.map_nil,
        List.mem_append, List.mem_cons, List.not_mem_nil, or_false] at hin
      rcases hin with hin | hin
      · rwa [hex] at hin
      · rw [hex] at hin
        exact absurd hin hxk
    have hle := List.Subperm.length_le (List.subperm_of_subset hnodup hsub)
    rw [List.length_map, List.length_map, hlen] at hle
    have hk := cacheInsert_kept_length (c.filter fun e => !expiredAt t e && e.key != k)
    have hM : (1 : Nat) ≤ MAXSIZE := by decide
    omega
  · intro c t k v hlk
    unfold cacheLookup at hlk
    cases hf : List.find? (fun e => e.key == k && !expiredAt t e) c with
    | none => rw [hf] at hlk; cases hlk
    | some e =>
      rw [hf] at hlk
      have hp := List.find?_some hf
      have hmem := List.mem_of_find?_eq_some hf
      simp only [Bool.and_eq_true, beq_iff_eq] at hp
      obtain ⟨hk, hexp⟩ := hp
      have hexp2 : expiredAt t e = false := by
        cases hb : expiredAt t e
        · rfl
        · rw [hb] at hexp
          cases hexp
      have hnle : ¬(e.time + TTL ≤ t) := by
        simp only [expiredAt] at hexp2
        exact of_decide_eq_false hexp2
      refine ⟨e.time, ?_, ?_⟩
      · have : e = ⟨k, v, e.time⟩ := by
          obtain ⟨ek, ev, et⟩ := e
          simp_all
        rwa [this] at hmem
      · omega

/-- The keys of `bigCache`, explicitly. -/
theorem bigCache_map_key : bigCache.map CacheEntry.key
    = (List.range MAXSIZE).map (fun i => (⟨List.replicate i 'a'⟩ : String)) := by
  simp only [bigCache, List.map_map]
  rfl

/-- `bigCache` is full. -/
theorem bigCache_length : bigCache.length = MAXSIZE := by
  simp [bigCache]

/-- The keys of `bigCache` are pairwise distinct. -/
theorem bigCache_keys_nodup : (bigCache.map CacheEntry.key).Nodup := by
  rw [bigCache_map_key]
  refine List.Nodup.map ?_ (List.nodup_range MAXSIZE)
  intro i j hij
  have hdata := congrArg String.data hij
  simpa using congrArg List.length hdata

/-- The key `"b"` is not stored in `bigCache`. -/
theorem b_not_in_bigCache : "b" ∉ bigCache.map CacheEntry.key := by
  rw [bigCache_map_key]
  intro h
  obtain ⟨i, _, heq⟩ := List.mem_map.1 h
  have hdata : List.replicate i 'a' = ['b'] := congrArg String.data heq
  have hlen : i = 1 := by simpa using congrArg List.length hdata
  subst hlen
  simp only [List.replicate, List.cons.injEq] at hdata
  exact absurd hdata.1 (by decide)

/-- Witness for `c6_cache_capacity_and_ttl`: an insertion into the empty cache
stays below capacity; inserting the fresh key `"b"` into the full `bigCache`
evicts one of its entries; and a lookup hit on a one-entry cache returns an entry
within its TTL. -/
theorem c6_cache_capacity_and_ttl_witness :
    ((cacheInsert [] 0 "a" dummyProfile).length ≤ MAXSIZE)
    ∧ (∃ e ∈ bigCache,
        e.key ∉ (cacheInsert bigCache 0 "b" dummyProfile).map CacheEntry.key)
    ∧ (∃ ti, (⟨"a", dummyProfile, ti⟩ : CacheEntry)
          ∈ [(⟨"a", dummyProfile, 0⟩ : CacheEntry)] ∧ 5 < ti + TTL) :=
  ⟨c6_cache_capacity_and_ttl.1 [] 0 "a" dummyProfile,
   c6_cache_capacity_and_ttl.2.1 bigCache 0 "b" dummyProfile bigCache_length
     bigCache_keys_nodup b_not_in_bigCache,
   c6_cache_capacity_and_ttl.2.2 [⟨"a", dummyProfile, 0⟩] 5 "a" dummyProfile
     (by decide)⟩

/-! ## C4: cache coalescing of upstream calls -/

/-- C4: a cache hit answers immediately from the cache with no upstream call and
no state change; a successful fetch of an uncached username calls the upstream
adapter exactly once and caches the result; and a second fetch of the same
username within the TTL window returns the same response as the first and leaves
the state (including the upstream-call counter) unchanged, so the two fetches
together invoke the upstream adapter at most once. -/
theorem c4_second_fetch_in_ttl_hits_cache (upstream : String → UpstreamOutcome)
    (st : ScrapeState) (t1 t2 : Nat) (username : String) (p : UpstreamProfile)
    (hmiss : cacheLookup st.cache t1 (pyLower username) = none)
    (hup : upstream (pyLower username) = .success p)
    (hid : ¬(p.userid = ""))
    (_h12 : t1 ≤ t2) (httl : t2 < t1 + TTL) :
    (∀ (stv : ScrapeState) (tv : Nat) (uv : String) (v : ProfileData),
        cacheLookup stv.cache tv (pyLower uv) = some v →
        get_instagram_profile upstream stv tv uv = (HttpResponse.ok v, stv))
    ∧ get_instagram_profile upstream st t1 username
        = (HttpResponse.ok (mkProfileData p),
           ⟨cacheInsert st.cache t1 (pyLower username) (mkProfileData p),
            st.upstreamCalls + 1⟩)
    ∧ get_instagram_profile upstream
          (get_instagram_profile upstream st t1 username).2 t2 username
        = get_instagram_profile upstream st t1 username := by
  have hfirst : get_instagram_profile upstream st t1 username
      = (HttpResponse.ok (mkProfileData p),
         ⟨cacheInsert st.cache t1 (pyLower username) (mkProfileData p),
          st.upstreamCalls + 1⟩) := by
    simp [get_instagram_profile, hmiss, hup, hid]
  refine ⟨?_, hfirst, ?_⟩
  · intro stv tv uv v hv
    simp [get_instagram_profile, hv]
  · rw [hfirst]
    have hhit := cacheLookup_cacheInsert_self st.cache t1 t2 (pyLower username)
      (mkProfileData p) httl
    simp [get_instagram_profile, hhit]

/-- Witness for `c4_second_fetch_in_ttl_hits_cache`: fetching `"NASA"` twice
(at times 0 and 10) against the nasa oracle, the second fetch repeats the first
response and changes nothing. -/
theorem c4_second_fetch_in_ttl_hits_cache_witness :
    get_instagram_profile nasaOracle
        (get_instagram_profile nasaOracle ⟨[], 0⟩ 0 "NASA").2 10 "NASA"
      = get_instagram_profile nasaOracle ⟨[], 0⟩ 0 "NASA" :=
  (c4_second_fetch_in_ttl_hits_cache nasaOracle ⟨[], 0⟩ 0 10 "NASA" nasaUpstream
    (by decide) (by decide) (by decide) (by decide) (by decide)).2.2

/-! ## C5: rate limiting -/

/-- Admissions of a same-window request burst: with `c` requests already counted
in window `w`, the `i`-th further request (0-indexed) is admitted exactly when
`c + i` is still below the quota. -/
theorem runLimiter_same_window (ts : List Nat) (w c : Nat)
    (hts : ∀ t ∈ ts, t / WINDOW_SECONDS = w) :
    (runLimiter ⟨w, c⟩ ts).1
      = (List.range ts.length).map (fun i => decide (c + i < RATE_LIMIT_COUNT)) := by
  induction ts generalizing c with
  | nil => simp [runLimiter]
  | cons t ts ih =>
    have hw : t / WINDOW_SECONDS = w := hts t (List.mem_cons_self t ts)
    have hrest : ∀ x ∈ ts, x / WINDOW_SECONDS = w :=
      fun x hx => hts x (List.mem_cons_of_mem t hx)
    have htail := ih (c + 1) hrest
    have hstep : (runLimiter ⟨w, c⟩ (t :: ts)).1
        = decide (c < RATE_LIMIT_COUNT) :: (runLimiter ⟨w, c + 1⟩ ts).1 := by
      simp [runLimiter, limiterHit, hw]
    have hfun : ((fun i => decide (c + i < RATE_LIMIT_COUNT)) ∘ Nat.succ)
        = fun i => decide (c + 1 + i < RATE_LIMIT_COUNT) := by
      funext i
      simp only [Function.comp_apply]
      rw [decide_eq_decide]
      omega
    rw [hstep, htail, List.length_cons, List.range_succ_eq_map, List.map_cons,
      List.map_map, hfun]
    simp

/-- C5: the profile endpoint is rate limited per client at 10 requests per
60-second window. For a burst of same-window requests the `i`-th request
(0-indexed, `c0` requests already counted) is admitted exactly when `c0 + i < 10`
— with a fresh window this admits the first 10 and rejects every request beyond
the 10th; a request in a different window is admitted again; a rejected request
is answered 429 and does no cache or upstream work. The limiter is attached only
to the profile endpoint: the image proxy answers 200 or 500, never 429, and the
health check always answers 200. -/
theorem c5_rate_limit_profile_endpoint_only (w c0 : Nat) (ts : List Nat)
    (hts : ∀ t ∈ ts, t / WINDOW_SECONDS = w)
    (t2 : Nat) (h2 : ¬(t2 / WINDOW_SECONDS = w)) :
    ((runLimiter ⟨w, c0⟩ ts).1
        = (List.range ts.length).map (fun i => decide (c0 + i < RATE_LIMIT_COUNT)))
    ∧ (limiterHit ⟨w, c0⟩ t2).1 = true
    ∧ (∀ (upstream : String → UpstreamOutcome) (st : AppState) (now : Nat)
          (addr username : String),
        (limiterHit (st.limiters addr) now).1 = false →
        (scrapeEndpoint upstream st now addr username).1
            = HttpResponse.err 429 "Rate limit exceeded" "10 per 1 minute"
          ∧ (scrapeEndpoint upstream st now addr username).2.scrape = st.scrape)
    ∧ (∀ (fetch : String → FetchOutcome) (url : String),
        (proxy_image fetch url).statusCode = 200
          ∨ (proxy_image fetch url).statusCode = 500)
    ∧ (∀ (cache : CacheState) (now : Nat), (health_check cache now).1 = 200) := by
  refine ⟨runLimiter_same_window ts w c0 hts, ?_, ?_, ?_, fun cache now => rfl⟩
  · simp [limiterHit, h2, RATE_LIMIT_COUNT]
  · intro upstream st now addr username h
    constructor
    · simp [scrapeEndpoint, h]
    · simp [scrapeEndpoint, h]
  · intro fetch url
    cases h : fetch url with
    | response s ct b => left; simp [proxy_image, h, ProxyResponse.statusCode]
    | exc msg => right; simp [proxy_image, h, ProxyResponse.statusCode]

/-- Witness for `c5_rate_limit_profile_endpoint_only`: twelve requests in the
first minute admit exactly the first ten; a request at second 61 is admitted
again; a client whose window is exhausted gets a 429 from the profile endpoint;
the proxy and health endpoints never answer 429. -/
theorem c5_rate_limit_profile_endpoint_only_witness :
    ((runLimiter ⟨0, 0⟩ [0, 1, 2, 3, 4, 5, 6, 7, 8, 9, 10, 59]).1
        = (List.range 12).map (fun i => decide (0 + i < RATE_LIMIT_COUNT)))
    ∧ (limiterHit ⟨0, 0⟩ 61).1 = true
    ∧ ((scrapeEndpoint nasaOracle ⟨fun _ => ⟨0, 10⟩, ⟨[], 0⟩⟩ 59 "1.2.3.4" "nasa").1
        = HttpResponse.err 429 "Rate limit exceeded" "10 per 1 minute")
    ∧ ((proxy_image (fun _ => .exc "net down") "https://example.com/img.jpg").statusCode = 200
        ∨ (proxy_image (fun _ => .exc "net down") "https://example.com/img.jpg").statusCode = 500)
    ∧ (health_check [] 0).1 = 200 := by
  have h := c5_rate_limit_profile_endpoint_only 0 0 [0, 1, 2, 3, 4, 5, 6, 7, 8, 9, 10, 59]
    (by decide) 61 (by decide)
  exact ⟨h.1, h.2.1,
    (h.2.2.1 nasaOracle ⟨fun _ => ⟨0, 10⟩, ⟨[], 0⟩⟩ 59 "1.2.3.4" "nasa" (by decide)).1,
    h.2.2.2.1 (fun _ => .exc "net down") "https://example.com/img.jpg",
    h.2.2.2.2 [] 0⟩

/-! ## Response shapes of the profile endpoint -/

/-- Every response of the profile handler is one of the mapped shapes: a 200
body, the 503 connection-failure body, the 500 fetch-failure body, or the 500
internal-error body. -/
theorem scrape_response_cases (upstream : String → UpstreamOutcome)
    (st : ScrapeState) (now : Nat) (username : String) :
    (∃ d, (get_instagram_profile upstream st now username).1 = HttpResponse.ok d)
    ∨ (∃ det, (get_instagram_profile upstream st now username).1
        = HttpResponse.err 503 "Instagram connection failed" det)
    ∨ (∃ det, (get_instagram_profile upstream st now username).1
        = HttpResponse.err 500 "Instagram fetch failed" det)
    ∨ (∃ det, (get_instagram_profile upstream st now username).1
        = HttpResponse.err 500 "Internal error" det) := by
  cases hc : cacheLookup st.cache now (pyLower username) with
  | some v => exact Or.inl ⟨v, by simp [get_instagram_profile, hc]⟩
  | none =>
    cases hu : upstream (pyLower username) with
    | success p =>
      by_cases hid : p.userid = ""
      · exact Or.inr (Or.inr (Or.inr ⟨httpExceptionStr 404 invalidDataDetail,
          by simp [get_instagram_profile, hc, hu, hid]⟩))
      · exact Or.inl ⟨mkProfileData p,
          by simp [get_instagram_profile, hc, hu, hid]⟩
    | profileNotExists =>
      exact Or.inr (Or.inr (Or.inr ⟨httpExceptionStr 404 (notFoundDetail username),
        by simp [get_instagram_profile, hc, hu]⟩))
    | connectionExc msg =>
      exact Or.inr (Or.inl ⟨msg, by simp [get_instagram_profile, hc, hu]⟩)
    | instaloaderExc msg =>
      exact Or.inr (Or.inr (Or.inl ⟨msg, by simp [get_instagram_profile, hc, hu]⟩))
    | otherExc msg =>
      exact Or.inr (Or.inr (Or.inr ⟨msg, by simp [get_instagram_profile, hc, hu]⟩))

/-! ## C3: upstream error translation -/

/-- C3: on a cache miss, an upstream connection failure is answered 503 with the
`"Instagram connection failed"` body, any other instaloader-capability failure
(the not-found condition aside, which the 404 branch intercepts) is answered 500
with the `"Instagram fetch failed"` body, and any unrecognized exception is
answered 500 with the `"Internal error"` body — each carrying the exception text
as its human-readable detail string; and every response of the endpoint is one of
the mapped shapes, so no internal exception reaches the client unmapped. -/
theorem c3_upstream_error_translation (upstream : String → UpstreamOutcome)
    (st : ScrapeState) (now : Nat) (username : String) :
    (∀ msg, cacheLookup st.cache now (pyLower username) = none →
        upstream (pyLower username) = .connectionExc msg →
        (get_instagram_profile upstream st now username).1
          = HttpResponse.err 503 "Instagram connection failed" msg)
    ∧ (∀ msg, cacheLookup st.cache now (pyLower username) = none →
        upstream (pyLower username) = .instaloaderExc msg →
        (get_instagram_profile upstream st now username).1
          = HttpResponse.err 500 "Instagram fetch failed" msg)
    ∧ (∀ msg, cacheLookup st.cache now (pyLower username) = none →
        upstream (pyLower username) = .otherExc msg →
        (get_instagram_profile upstream st now username).1
          = HttpResponse.err 500 "Internal error" msg)
    ∧ ((∃ d, (get_instagram_profile upstream st now username).1 = HttpResponse.ok d)
        ∨ (∃ det, (get_instagram_profile upstream st now username).1
            = HttpResponse.err 503 "Instagram connection failed" det)
        ∨ (∃ det, (get_instagram_profile upstream st now username).1
            = HttpResponse.err 500 "Instagram fetch failed" det)
        ∨ (∃ det, (get_instagram_profile upstream st now username).1
            = HttpResponse.err 500 "Internal error" det)) := by
  refine ⟨?_, ?_, ?_, scrape_response_cases upstream st now username⟩
  · intro msg hmiss hup
    simp [get_instagram_profile, hmiss, hup]
  · intro msg hmiss hup
    simp [get_instagram_profile, hmiss, hup]
  · intro msg hmiss hup
    simp [get_instagram_profile, hmiss, hup]

/-- Witness for `c3_upstream_error_translation`: on an empty cache, a connection
failure yields the 503 body, another instaloader failure the 500 fetch-failed
body, and an unrecognized exception the 500 internal-error body. -/
theorem c3_upstream_error_translation_witness :
    ((get_instagram_profile (fun _ => .connectionExc "connection refused")
        ⟨[], 0⟩ 0 "u").1
      = HttpResponse.err 503 "Instagram connection failed" "connection refused")
    ∧ ((get_instagram_profile (fun _ => .instaloaderExc "bad json")
        ⟨[], 0⟩ 0 "u").1
      = HttpResponse.err 500 "Instagram fetch failed" "bad json")
    ∧ ((get_instagram_profile (fun _ => .otherExc "boom") ⟨[], 0⟩ 0 "u").1
      = HttpResponse.err 500 "Internal error" "boom") :=
  ⟨(c3_upstream_error_translation (fun _ => .connectionExc "connection refused")
      ⟨[], 0⟩ 0 "u").1 "connection refused" rfl rfl,
   (c3_upstream_error_translation (fun _ => .instaloaderExc "bad json")
      ⟨[], 0⟩ 0 "u").2.1 "bad json" rfl rfl,
   (c3_upstream_error_translation (fun _ => .otherExc "boom")
      ⟨[], 0⟩ 0 "u").2.2.1 "boom" rfl rfl⟩

/-! ## C7: username normalization -/

/-- C7: the username is lower-cased before every cache lookup, cache insertion
and upstream query, so two requests whose usernames agree up to letter case leave
identical states (same cache entry, same upstream calls) and produce the same
successful responses. -/
theorem c7_username_case_insensitive (upstream : String → UpstreamOutcome)
    (st : ScrapeState) (now : Nat) (u1 u2 : String)
    (h : pyLower u1 = pyLower u2) :
    (get_instagram_profile upstream st now u1).2
        = (get_instagram_profile upstream st now u2).2
    ∧ (∀ d, (get_instagram_profile upstream st now u1).1 = HttpResponse.ok d ↔
            (get_instagram_profile upstream st now u2).1 = HttpResponse.ok d) := by
  simp only [get_instagram_profile, h]
  cases hc : cacheLookup st.cache now (pyLower u2) with
  | some v => simp
  | none =>
    cases hu : upstream (pyLower u2) with
    | success p =>
      by_cases hid : p.userid = "" <;> simp [hid]
    | profileNotExists => simp
    | connectionExc msg => simp
    | instaloaderExc msg => simp
    | otherExc msg => simp

/-- Witness for `c7_username_case_insensitive`: requesting `"NASA"` and
`"nasa"` leaves identical states and the same 200 body. -/
theorem c7_username_case_insensitive_witness :
    ((get_instagram_profile nasaOracle ⟨[], 0⟩ 0 "NASA").2
        = (get_instagram_profile nasaOracle ⟨[], 0⟩ 0 "nasa").2)
    ∧ ((get_instagram_profile nasaOracle ⟨[], 0⟩ 0 "NASA").1
          = HttpResponse.ok (mkProfileData nasaUpstream)
        ↔ (get_instagram_profile nasaOracle ⟨[], 0⟩ 0 "nasa").1
          = HttpResponse.ok (mkProfileData nasaUpstream)) :=
  have h := c7_username_case_insensitive nasaOracle ⟨[], 0⟩ 0 "NASA" "nasa"
    (by decide)
  ⟨h.1, h.2 (mkProfileData nasaUpstream)⟩

/-! ## C8: response field mapping -/

/-- C8: a successful fetch answers 200 with the upstream record mapped field by
field — `followers` from `followers`, `following` from `followees`,
`posts_count` from `mediacount`, `dp_url` from `profile_pic_url`, `bio` from
`biography`, `full_name` from `full_name` — and in the `/scrape/nasa` scenario
the response echoes the upstream values with `posts_count` equal to
`mediacount` (4200). -/
theorem c8_response_mirrors_upstream_fields (upstream : String → UpstreamOutcome)
    (st : ScrapeState) (now : Nat) (username : String) (p : UpstreamProfile)
    (hmiss : cacheLookup st.cache now (pyLower username) = none)
    (hup : upstream (pyLower username) = .success p)
    (hid : ¬(p.userid = "")) :
    ((get_instagram_profile upstream st now username).1
      = HttpResponse.ok ⟨p.username, p.followers, p.followees, p.mediacount,
          p.profile_pic_url, p.biography, p.full_name⟩)
    ∧ ((get_instagram_profile nasaOracle ⟨[], 0⟩ 0 "nasa").1
      = HttpResponse.ok ⟨"nasa", 95000000, 60, 4200, "https://.../nasa.jpg",
          "Explore the universe.", "NASA"⟩) := by
  constructor
  · simp [get_instagram_profile, hmiss, hup, hid, mkProfileData]
  · decide

/-- Witness for `c8_response_mirrors_upstream_fields` at the nasa scenario. -/
theorem c8_response_mirrors_upstream_fields_witness :
    (get_instagram_profile nasaOracle ⟨[], 0⟩ 0 "nasa").1
      = HttpResponse.ok ⟨nasaUpstream.username, nasaUpstream.followers,
          nasaUpstream.followees, nasaUpstream.mediacount,
          nasaUpstream.profile_pic_url, nasaUpstream.biography,
          nasaUpstream.full_name⟩ :=
  (c8_response_mirrors_upstream_fields nasaOracle ⟨[], 0⟩ 0 "nasa" nasaUpstream
    rfl (by decide) (by decide)).1

/-! ## C9: cache writes only on full success -/

/-- C9: a request that ends in any error response (rate-limited, not-found turned
internal error, upstream failure, or internal error) leaves the profile cache
exactly as it was; conversely, the cache changes only when the upstream fetch
fully succeeded, the record's identity field was validated non-empty, and the
response is the 200 built from it. -/
theorem c9_cache_unchanged_on_error (upstream : String → UpstreamOutcome)
    (st : AppState) (now : Nat) (addr username : String) :
    (∀ s e det,
        (scrapeEndpoint upstream st now addr username).1 = HttpResponse.err s e det →
        (scrapeEndpoint upstream st now addr username).2.scrape.cache
          = st.scrape.cache)
    ∧ ((scrapeEndpoint upstream st now addr username).2.scrape.cache
          ≠ st.scrape.cache →
        ∃ p, upstream (pyLower username) = .success p ∧ ¬(p.userid = "")
          ∧ (scrapeEndpoint upstream st now addr username).1
            = HttpResponse.ok (mkProfileData p)) := by
  by_cases hadm : (limiterHit (st.limiters addr) now).1 = true
  · constructor
    · intro s e det heq
      cases hc : cacheLookup st.scrape.cache now (pyLower username) with
      | some v => simp [scrapeEndpoint, hadm, get_instagram_profile, hc]
      | none =>
        cases hu : upstream (pyLower username) with
        | success p =>
          by_cases hid : p.userid = ""
          · simp [scrapeEndpoint, hadm, get_instagram_profile, hc, hu, hid]
          · exfalso
            have : (scrapeEndpoint upstream st now addr username).1
                = HttpResponse.ok (mkProfileData p) := by
              simp [scrapeEndpoint, hadm, get_instagram_profile, hc, hu, hid]
            rw [this] at heq
            cases heq
        | profileNotExists =>
          simp [scrapeEndpoint, hadm, get_instagram_profile, hc, hu]
        | connectionExc msg =>
          simp [scrapeEndpoint, hadm, get_instagram_profile, hc, hu]
        | instaloaderExc msg =>
          simp [scrapeEndpoint, hadm, get_instagram_profile, hc, hu]
        | otherExc msg =>
          simp [scrapeEndpoint, hadm, get_instagram_profile, hc, hu]
    · intro hne
      cases hc : cacheLookup st.scrape.cache now (pyLower username) with
      | some v =>
        exact absurd (by simp [scrapeEndpoint, hadm, get_instagram_profile, hc]) hne
      | none =>
        cases hu : upstream (pyLower username) with
        | success p =>
          by_cases hid : p.userid = ""
          · exact absurd
              (by simp [scrapeEndpoint, hadm, get_instagram_profile, hc, hu, hid])
              hne
          · exact ⟨p, rfl, hid,
              by simp [scrapeEndpoint, hadm, get_instagram_profile, hc, hu, hid]⟩
        | profileNotExists =>
          exact absurd
            (by simp [scrapeEndpoint, hadm, get_instagram_profile, hc, hu]) hne
        | connectionExc msg =>
          exact absurd
            (by simp [scrapeEndpoint, hadm, get_instagram_profile, hc, hu]) hne
        | instaloaderExc msg =>
          exact absurd
            (by simp [scrapeEndpoint, hadm, get_instagram_profile, hc, hu]) hne
        | otherExc msg =>
          exact absurd
            (by simp [scrapeEndpoint, hadm, get_instagram_profile, hc, hu]) hne
  · rw [Bool.not_eq_true] at hadm
    constructor
    · intro s e det _
      simp [scrapeEndpoint, hadm]
    · intro hne
      exact absurd (by simp [scrapeEndpoint, hadm]) hne

/-- Witness for `c9_cache_unchanged_on_error`: an upstream connection failure
leaves the empty cache empty, and a successful `nasa` fetch is the only way the
cache changed. -/
theorem c9_cache_unchanged_on_error_witness :
    ((scrapeEndpoint (fun _ => .connectionExc "down")
        ⟨fun _ => ⟨0, 0⟩, ⟨[], 0⟩⟩ 0 "1.2.3.4" "u").2.scrape.cache = [])
    ∧ (∃ p, nasaOracle (pyLower "nasa") = .success p ∧ ¬(p.userid = "")
        ∧ (scrapeEndpoint nasaOracle ⟨fun _ => ⟨0, 0⟩, ⟨[], 0⟩⟩ 0 "1.2.3.4"
            "nasa").1 = HttpResponse.ok (mkProfileData p)) :=
  ⟨(c9_cache_unchanged_on_error (fun _ => .connectionExc "down")
      ⟨fun _ => ⟨0, 0⟩, ⟨[], 0⟩⟩ 0 "1.2.3.4" "u").1
      503 "Instagram connection failed" "down" (by decide),
   (c9_cache_unchanged_on_error nasaOracle ⟨fun _ => ⟨0, 0⟩, ⟨[], 0⟩⟩ 0 "1.2.3.4"
      "nasa").2 (by decide)⟩

/-! ## C10: canonical username in the response, lower-cased key in the cache -/

/-- C10: the `username` field of a successful response is the upstream record's
canonical username — so a request differing from the canonical form receives a
record whose `username` differs from the request path — while the cache is keyed
by the lower-cased caller-supplied string. -/
theorem c10_response_username_is_canonical (upstream : String → UpstreamOutcome)
    (st : ScrapeState) (now : Nat) (username : String) (p : UpstreamProfile)
    (hmiss : cacheLookup st.cache now (pyLower username) = none)
    (hup : upstream (pyLower username) = .success p)
    (hid : ¬(p.userid = "")) :
    ((get_instagram_profile upstream st now username).1
        = HttpResponse.ok (mkProfileData p))
    ∧ (mkProfileData p).username = p.username
    ∧ (p.username ≠ username → (mkProfileData p).username ≠ username)
    ∧ (get_instagram_profile upstream st now username).2.cache
        = cacheInsert st.cache now (pyLower username) (mkProfileData p) := by
  refine ⟨?_, rfl, fun hne => hne, ?_⟩
  · simp [get_instagram_profile, hmiss, hup, hid]
  · simp [get_instagram_profile, hmiss, hup, hid]

/-- Witness for `c10_response_username_is_canonical`: requesting `"NASA"`
returns the canonical `"nasa"` (different from the request path) and caches it
under `pyLower "NASA"`. -/
theorem c10_response_username_is_canonical_witness :
    ((get_instagram_profile nasaOracle ⟨[], 0⟩ 0 "NASA").1
        = HttpResponse.ok (mkProfileData nasaUpstream))
    ∧ ((mkProfileData nasaUpstream).username ≠ "NASA")
    ∧ ((get_instagram_profile nasaOracle ⟨[], 0⟩ 0 "NASA").2.cache
        = cacheInsert [] 0 (pyLower "NASA") (mkProfileData nasaUpstream)) :=
  have h := c10_response_username_is_canonical nasaOracle ⟨[], 0⟩ 0 "NASA"
    nasaUpstream rfl (by decide) (by decide)
  ⟨h.1, h.2.2.1 (by decide), h.2.2.2⟩

/-! ## C1: the not-found paths never reach the client as 404 (code bug) -/

/-- C1 (code bug): both 404 paths — upstream nonexistence and an empty upstream
`userid` — raise their `HTTPException(404)` inside the outer `try`, where the
handler's own `except Exception` clause catches it (FastAPI's `HTTPException`
derives from `Exception`) and replaces it with a 500 `"Internal error"` response
whose detail is the stringified 404; consequently the endpoint never answers 404
at all: every response status is 200, 500 or 503. -/
theorem c1_not_found_becomes_500 :
    ((get_instagram_profile (fun _ => .profileNotExists) ⟨[], 0⟩ 0
        "thisuserdoesnotexist123456").1
      = HttpResponse.err 500 "Internal error"
          (httpExceptionStr 404 (notFoundDetail "thisuserdoesnotexist123456")))
    ∧ ((get_instagram_profile
          (fun _ => .success ⟨"", "ghost", 1, 2, 3, "pic", "b", "f"⟩)
          ⟨[], 0⟩ 0 "ghost").1
      = HttpResponse.err 500 "Internal error"
          (httpExceptionStr 404 invalidDataDetail))
    ∧ (∀ (upstream : String → UpstreamOutcome) (st : ScrapeState) (now : Nat)
          (username : String),
        (get_instagram_profile upstream st now username).1.statusCode = 200
          ∨ (get_instagram_profile upstream st now username).1.statusCode = 500
          ∨ (get_instagram_profile upstream st now username).1.statusCode = 503) := by
  refine ⟨by decide, by decide, ?_⟩
  intro upstream st now username
  rcases scrape_response_cases upstream st now username with
    ⟨d, hd⟩ | ⟨det, hdet⟩ | ⟨det, hdet⟩ | ⟨det, hdet⟩
  · left
    rw [hd]
    rfl
  · right; right
    rw [hdet]
    rfl
  · right; left
    rw [hdet]
    rfl
  · right; left
    rw [hdet]
    rfl

/-! ## C2: image proxy failure handling -/

/-- C2 counterexample: an upstream non-2xx response — a "fetch failure" in the
claim's sense — is not collapsed to the 500 `ImageFetchFailed` error: its body is
streamed back and the proxy answers with status 200. -/
theorem c2_counterexample_non2xx_streams_200 :
    (proxy_image (fun _ => .response 404 (some "text/html") [60, 104, 49, 62])
        "https://example.com/missing.jpg"
      = ProxyResponse.stream 200 "text/html" [60, 104, 49, 62])
    ∧ (proxy_image (fun _ => .response 404 (some "text/html") [60, 104, 49, 62])
        "https://example.com/missing.jpg").statusCode = 200 := by
  decide

/-- C2 (amended): a fetch failure that raises — network error or timeout —
collapses to the single 500 `"Image fetch failed"` error with no upstream detail
passed through, while any upstream HTTP response (2xx or not) is streamed back
with status 200 and its content type (defaulting to `image/jpeg`). -/
theorem c2_raised_fetch_failures_collapse_to_500
    (fetch : String → FetchOutcome) (url : String) :
    (∀ msg, fetch url = .exc msg →
        proxy_image fetch url = ProxyResponse.err 500 "Image fetch failed")
    ∧ (∀ s ct b, fetch url = .response s ct b →
        proxy_image fetch url = ProxyResponse.stream 200 (ct.getD "image/jpeg") b) := by
  constructor
  · intro msg h
    simp [proxy_image, h]
  · intro s ct b h
    simp [proxy_image, h]

/-- Witness for `c2_raised_fetch_failures_collapse_to_500`: a timeout exception
is answered 500 `"Image fetch failed"`, and a 200 upstream image is streamed. -/
theorem c2_raised_fetch_failures_collapse_to_500_witness :
    (proxy_image (fun _ => .exc "timeout") "https://example.com/img.jpg"
      = ProxyResponse.err 500 "Image fetch failed")
    ∧ (proxy_image (fun _ => .response 200 (some "image/png") [1, 2])
        "https://example.com/img.jpg"
      = ProxyResponse.stream 200 "image/png" [1, 2]) :=
  ⟨(c2_raised_fetch_failures_collapse_to_500 (fun _ => .exc "timeout")
      "https://example.com/img.jpg").1 "timeout" rfl,
   (c2_raised_fetch_failures_collapse_to_500
      (fun _ => .response 200 (some "image/png") [1, 2])
      "https://example.com/img.jpg").2 200 (some "image/png") [1, 2] rfl⟩

end InstaFetcher
